import Mathlib

/-!
# Verification of `fetch-claude-usage.py`

A shallow embedding in Lean 4 of the single-file Python tool
`src/fetch-claude-usage.py`, together with theorems settling the claims of
the spec about it.

Modelling conventions:

* Raw program text is `List Char`.  The Python truthiness test `if not output`
  (false for `None` and for the empty string) is the predicate `truthy` on
  `Option (List Char)`.
* The six regular expressions searched by `parse_usage` are embedded as
  character-level matching functions.  Each of those patterns is
  backtracking-free on its own alternative structure: a greedy `\d+` followed
  by a literal `%` matches at a position exactly when the maximal digit run
  starting there is immediately followed by `%` (shortening the run would put
  a digit, not `%`, next), and similarly a greedy `\s*` followed by a letter
  cannot be shortened usefully because whitespace and letters are disjoint.
  Hence each `re.search` call is exactly a leftmost scan with the
  deterministic per-position matchers defined below.  `re.IGNORECASE` on the
  ASCII label text is modelled by comparing `Char.toLower` on both sides,
  and `\d` / `\s` by ASCII digit / whitespace predicates (the inputs the
  program scrapes are ASCII terminal output).
* Wall-clock instants are natural numbers counting seconds; `timedelta(hours=5)`
  is 18000 seconds.  `save_usage` calls `datetime.now()` twice (once for
  `reset_at`, once for the `timestamp` field), so it takes the two successive
  clock readings as explicit arguments `n1` and `n2`.
* File-system effects are modelled by threading the contents of the single
  snapshot path `~/.openclaw-pet/real-usage.json` (an `Option UsageSnapshot`)
  through `runMain`; `print` side effects relevant to the claims are recorded
  as booleans in the result record.
-/

namespace FetchClaudeUsage

/-! ## Characters: `\d`, `\s`, `re.IGNORECASE` -/

/-- The Python character class `\s` restricted to ASCII: space, tab, newline, carriage return,
vertical tab, form feed. -/
def isSpaceC (c : Char) : Bool :=
  c = ' ' || c = '\t' || c = '\n' || c = '\r' || c = '\x0b' || c = '\x0c'

/-- Numeric value of the digit list captured by `(\d+)`, as computed by
the Python `int` conversion on the captured substring. -/
def digitsToNat (ds : List Char) : Nat :=
  ds.foldl (fun acc c => 10 * acc + (c.toNat - '0'.toNat)) 0

/-- Case-insensitive literal match: if `label` (case-insensitively) begins
`s`, return the remainder of `s`; otherwise `none`.  Models matching the
literal part of a pattern under `re.IGNORECASE`. -/
def dropLiteralCI : List Char → List Char → Option (List Char)
  | [], s => some s
  | _ :: _, [] => none
  | l :: ls, c :: cs => if l.toLower = c.toLower then dropLiteralCI ls cs else none

/-! ## Per-position matchers for the six patterns of `parse_usage`

Each function decides whether the corresponding regex matches at the *start*
of its argument and, when it does, returns the integer value of the capture
group `(\d+)`. -/

/-- Match `LABEL\s*(\d+)%` at the start of `s` (source patterns 1 to 4 with
`LABEL` one of the four literal labels). -/
def matchLabeledAt (label : List Char) (s : List Char) : Option Nat :=
  match dropLiteralCI label s with
  | none => none
  | some rest =>
    let afterWs := rest.dropWhile isSpaceC
    let ds := afterWs.takeWhile Char.isDigit
    match ds, afterWs.dropWhile Char.isDigit with
    | [], _ => none
    | _ :: _, '%' :: _ => some (digitsToNat ds)
    | _ :: _, _ => none

/-- Match `(\d+)%\s*(?:used|of)` at the start of `s` (source pattern 5). -/
def matchUsedOfAt (s : List Char) : Option Nat :=
  let ds := s.takeWhile Char.isDigit
  match ds, s.dropWhile Char.isDigit with
  | [], _ => none
  | _ :: _, '%' :: rest =>
    let afterWs := rest.dropWhile isSpaceC
    if (dropLiteralCI "used".toList afterWs).isSome
        || (dropLiteralCI "of".toList afterWs).isSome then
      some (digitsToNat ds)
    else none
  | _ :: _, _ => none

/-- Match `(\d+)%` at the start of `s` (source pattern 6, "any percentage"). -/
def matchBarePercentAt (s : List Char) : Option Nat :=
  let ds := s.takeWhile Char.isDigit
  match ds, s.dropWhile Char.isDigit with
  | [], _ => none
  | _ :: _, '%' :: _ => some (digitsToNat ds)
  | _ :: _, _ => none

/-- `re.search`: try the per-position matcher at each position of the text,
left to right, returning the first (leftmost) success. -/
def searchFirst (matchAt : List Char → Option Nat) : List Char → Option Nat
  | [] => matchAt []
  | c :: cs =>
    match matchAt (c :: cs) with
    | some v => some v
    | none => searchFirst matchAt cs

/-! ## `parse_usage` -/

def fiveHourLabel : List Char := "5-hour:".toList
def modelUsageLabel : List Char := "Model usage:".toList
def usageLabel : List Char := "Usage:".toList
def currentUsageLabel : List Char := "Current usage:".toList

/-- `parse_usage` (source lines 111-135): `if not output: return None`, then
try the six patterns in order, returning the integer captured by the first
pattern that matches anywhere in the text; `None` if no pattern matches. -/
def parse_usage (output : List Char) : Option Nat :=
  if output.isEmpty then none
  else
    match searchFirst (matchLabeledAt fiveHourLabel) output with
    | some v => some v
    | none =>
      match searchFirst (matchLabeledAt modelUsageLabel) output with
      | some v => some v
      | none =>
        match searchFirst (matchLabeledAt usageLabel) output with
        | some v => some v
        | none =>
          match searchFirst (matchLabeledAt currentUsageLabel) output with
          | some v => some v
          | none =>
            match searchFirst matchUsedOfAt output with
            | some v => some v
            | none =>
              match searchFirst matchBarePercentAt output with
              | some v => some v
              | none => none

/-- The result of the four *labeled* searches alone (source patterns 1-4),
in the same priority order as `parse_usage`. -/
def labeledSearch (output : List Char) : Option Nat :=
  match searchFirst (matchLabeledAt fiveHourLabel) output with
  | some v => some v
  | none =>
    match searchFirst (matchLabeledAt modelUsageLabel) output with
    | some v => some v
    | none =>
      match searchFirst (matchLabeledAt usageLabel) output with
      | some v => some v
      | none => searchFirst (matchLabeledAt currentUsageLabel) output

/-! ## The interactive-session driver `fetch_usage_with_pexpect`

Source lines 11-54.  The interaction with the spawned child is modelled by an
environment record describing what the child would make each `expect` call
observe:

* `spawnFails`: `pexpect.spawn` raises (e.g. the executable is
  missing); the exception is caught by the `except Exception` block.
* `promptEvent`: the outcome of `child.expect(patterns)` on line 29 — one of
  the four prompt patterns matched (index 0-3), or `pexpect.EOF` (index 4),
  or `pexpect.TIMEOUT` (index 5).
* `respEvent`: the outcome of `child.expect([r".*%.*", pexpect.TIMEOUT])` on
  line 41.
* `respBefore` / `respAfter`: the decoded contents of `child.before` and
  `child.after` after a *successful* match on line 41 (`.decode` with
  `errors="ignore"` never raises, so these are plain text).

Library fact used by the `respTimedOut` branch: when the matched entry of an
`expect` pattern list is `pexpect.TIMEOUT`, pexpect sets `child.after` to the
`TIMEOUT` exception *class* itself, not to bytes (pexpect `expect.py`,
`Expecter.timeout`: `spawn.after = TIMEOUT`).  The class has no `.decode`
attribute, so line 44 raises `AttributeError`, which the `except Exception`
block catches, printing `pexpect error: ...` and returning `None` — without
ever reaching the `sendline` of the exit command or the `close` on lines 47-48. -/

inductive PromptEvent where
  | matched (i : Fin 4)
  | eofSeen
  | timedOut
deriving DecidableEq

inductive RespEvent where
  | matched
  | timedOut
deriving DecidableEq

structure PexpectEnv where
  spawnFails : Bool
  promptEvent : PromptEvent
  respEvent : RespEvent
  respBefore : List Char
  respAfter : List Char
deriving DecidableEq

/-- What a run of the interactive-session driver did: the value it returned,
and whether it executed `child.sendline` of the exit command and `child.close` before
returning. -/
structure DriverTrace where
  output : Option (List Char)
  sentExit : Bool
  closed : Bool
deriving DecidableEq

/-- `fetch_usage_with_pexpect` (source lines 11-54).  Branches, in source
order: spawn raising is caught and returns `None`; prompt-wait ending in EOF
or TIMEOUT (indices 4, 5) returns `None` at line 33; a matched prompt sends
`/usage` and waits for the response; a matched response concatenates the
decoded `before` and `after` buffers, sends `exit`, closes, and returns the
text; a timed-out response wait hits the `AttributeError` described above and
falls into the `except` block, returning `None` with no exit/close. -/
def fetch_usage_with_pexpect (env : PexpectEnv) : DriverTrace :=
  if env.spawnFails then ⟨none, false, false⟩
  else
    match env.promptEvent with
    | .eofSeen => ⟨none, false, false⟩
    | .timedOut => ⟨none, false, false⟩
    | .matched _ =>
      match env.respEvent with
      | .matched => ⟨some (env.respBefore ++ env.respAfter), true, true⟩
      | .timedOut => ⟨none, false, false⟩

/-! ## The pipe-based and OS-automation drivers

Source lines 56-77 and 79-109.  Each is a `try` block around one blocking
call whose observable outcome is either captured text (the stdout collected by `proc.communicate`, or `result.stdout` — possibly the empty string) or an exception
converted to `None`.  The environment supplies that outcome directly as an
`Option (List Char)` (`none` = the call raised). -/

/-- `fetch_usage_with_subprocess` (source lines 56-77): returns the stdout
captured by `proc.communicate`, or `None` when spawn/communicate raised. -/
def fetch_usage_with_subprocess (commResult : Option (List Char)) : Option (List Char) :=
  match commResult with
  | some out => some out
  | none => none

/-- `fetch_usage_with_script` (source lines 79-109): returns `result.stdout`
of the `osascript` run, or `None` when it raised (timeout, missing host). -/
def fetch_usage_with_script (osascriptResult : Option (List Char)) : Option (List Char) :=
  match osascriptResult with
  | some out => some out
  | none => none

/-! ## Persistence: `save_usage` -/

/-- The record written to `~/.openclaw-pet/real-usage.json`
(source lines 149-159). -/
structure UsageSnapshot where
  percentage : Int
  used : Int
  limit : Int
  resetAt : Nat
  subscription : String
  type : String
  realData : Bool
  timestamp : Nat
  source : String
deriving DecidableEq

/-- `save_usage` (source lines 137-169).  `n1` is the `datetime.now()` read on
line 147 (used for `reset_at = now + timedelta(hours=5)`); `n2` is the
separate, later `datetime.now()` read on line 157 (the `timestamp` field).
Instants are seconds, so five hours is 18000. -/
def save_usage (percentage : Int) (n1 n2 : Nat) : UsageSnapshot :=
  { percentage := percentage
    used := percentage
    limit := 100
    resetAt := n1 + 18000
    subscription := "Claude Pro"
    type := "5-hour"
    realData := true
    timestamp := n2
    source := "auto-fetch from Claude Code (Python)" }

/-! ## Orchestration: `main` -/

inductive Driver where
  | pexpectD
  | subprocessD
  | scriptD
deriving DecidableEq

/-- Python truthiness of the `output` variable: `if not output` is false
exactly for a non-`None`, non-empty string. -/
def truthy : Option (List Char) → Bool
  | none => false
  | some s => !s.isEmpty

/-- The text held by a truthy `output` (`[]` for `None`, consistent with the
own `if not output` guard of `parse_usage`). -/
def textOf : Option (List Char) → List Char
  | none => []
  | some s => s

/-- Environment of one program run: whether the `pexpect` module is
importable, what each external interaction would yield, and `sys.platform`. -/
structure Env where
  pexpectAvailable : Bool
  pexpect : PexpectEnv
  subprocessResult : Option (List Char)
  scriptResult : Option (List Char)
  platform : String

/-- The fallback chain of `main` (source lines 173-187): which drivers run
and what the `output` variable holds afterwards.  The `try: import pexpect`
fails only when the module is unavailable; then `output` stays `None` and the
chain continues with the other methods.  Each later driver runs only when
`output` is still falsy, and the OS-automation driver additionally requires
`sys.platform` being equal to the string darwin. -/
def driverChain (env : Env) : List Driver × Option (List Char) :=
  let o1 := if env.pexpectAvailable then (fetch_usage_with_pexpect env.pexpect).output
            else none
  let a1 := if env.pexpectAvailable then [Driver.pexpectD] else []
  if truthy o1 then (a1, o1)
  else
    let o2 := fetch_usage_with_subprocess env.subprocessResult
    if truthy o2 then (a1 ++ [Driver.subprocessD], o2)
    else if env.platform = "darwin" then
      (a1 ++ [Driver.subprocessD, Driver.scriptD],
       fetch_usage_with_script env.scriptResult)
    else (a1 ++ [Driver.subprocessD], o2)

/-- Observable outcome of one `main` run. `parsed = none` means `parse_usage`
was never called; `parsed = some r` records its result.  `saved` is the
snapshot written by `save_usage`, if any.  The two booleans record the
`print` on the `except ImportError` branch (line 180) and the `❌ Failed to
fetch usage` diagnostic (lines 190-191). -/
structure MainResult where
  attempted : List Driver
  output : Option (List Char)
  importFallbackPrinted : Bool
  fetchFailPrinted : Bool
  parsed : Option (Option Nat)
  saved : Option UsageSnapshot
  success : Bool

/-- `main` (source lines 171-203), threading the snapshot-file contents
`file0`.  After the driver chain: a falsy `output` prints the failure
diagnostic and returns `False` without parsing or writing; otherwise
`parse_usage` runs, and a parsed percentage is passed to `save_usage`
(overwriting the file) with `True` returned, while a parse failure returns
`False` leaving the file untouched. -/
def runMain (env : Env) (n1 n2 : Nat) (file0 : Option UsageSnapshot) :
    MainResult × Option UsageSnapshot :=
  let chain := driverChain env
  let att := chain.1
  let o := chain.2
  if truthy o then
    match parse_usage (textOf o) with
    | some v =>
      let snap := save_usage (Int.ofNat v) n1 n2
      ({ attempted := att, output := o,
         importFallbackPrinted := !env.pexpectAvailable,
         fetchFailPrinted := false, parsed := some (some v),
         saved := some snap, success := true }, some snap)
    | none =>
      ({ attempted := att, output := o,
         importFallbackPrinted := !env.pexpectAvailable,
         fetchFailPrinted := false, parsed := some none,
         saved := none, success := false }, file0)
  else
    ({ attempted := att, output := o,
       importFallbackPrinted := !env.pexpectAvailable,
       fetchFailPrinted := true, parsed := none,
       saved := none, success := false }, file0)

/-- The whole program (source lines 1-207).  `import pexpect` on line 4 runs
unconditionally at module load, so when the module is unavailable the
interpreter raises `ModuleNotFoundError` before `main` is defined or called:
the run produces no `MainResult` at all (`none`). -/
def runProgram (env : Env) (n1 n2 : Nat) (file0 : Option UsageSnapshot) :
    Option (MainResult × Option UsageSnapshot) :=
  if env.pexpectAvailable then some (runMain env n1 n2 file0) else none

/-- The result of the two non-labeled searches (source patterns 5 and 6), in
the same priority order as `parse_usage`. -/
def bareSearch (output : List Char) : Option Nat :=
  match searchFirst matchUsedOfAt output with
  | some v => some v
  | none =>
    match searchFirst matchBarePercentAt output with
    | some v => some v
    | none => none

/-! ## Helper lemmas -/

theorem labeledSearch_nil : labeledSearch ([] : List Char) = none := rfl

theorem parse_usage_nil : parse_usage ([] : List Char) = none := rfl

/-- `parse_usage` factored through the labeled searches (patterns 1-4) and
the bare searches (patterns 5-6): the first matching pattern wins, labeled
patterns strictly before bare ones. -/
theorem parse_usage_factored (output : List Char) :
    parse_usage output =
      if output.isEmpty then none
      else
        match labeledSearch output with
        | some v => some v
        | none => bareSearch output := by
  unfold parse_usage labeledSearch bareSearch
  cases searchFirst (matchLabeledAt fiveHourLabel) output <;>
    cases searchFirst (matchLabeledAt modelUsageLabel) output <;>
    cases searchFirst (matchLabeledAt usageLabel) output <;>
    cases searchFirst (matchLabeledAt currentUsageLabel) output <;>
    rfl

/-- Whenever one of the four labeled patterns matches somewhere in the text,
`parse_usage` returns the value of the highest-priority labeled pattern that
matches, ignoring the bare patterns entirely. -/
theorem labeledSearch_parse (t : List Char) (v : Nat)
    (h : labeledSearch t = some v) : parse_usage t = some v := by
  cases t with
  | nil => rw [labeledSearch_nil] at h; exact Option.noConfusion h
  | cons c cs => rw [parse_usage_factored, h]; rfl

theorem runMain_attempted (env : Env) (n1 n2 : Nat) (file0 : Option UsageSnapshot) :
    (runMain env n1 n2 file0).1.attempted = (driverChain env).1 := by
  simp only [runMain]
  split
  · split <;> rfl
  · rfl

theorem runMain_output (env : Env) (n1 n2 : Nat) (file0 : Option UsageSnapshot) :
    (runMain env n1 n2 file0).1.output = (driverChain env).2 := by
  simp only [runMain]
  split
  · split <;> rfl
  · rfl

theorem runMain_importFallback (env : Env) (n1 n2 : Nat) (file0 : Option UsageSnapshot) :
    (runMain env n1 n2 file0).1.importFallbackPrinted = !env.pexpectAvailable := by
  simp only [runMain]
  split
  · split <;> rfl
  · rfl

theorem driverChain_pexpect (env : Env) (ha : env.pexpectAvailable = true)
    (h1 : truthy (fetch_usage_with_pexpect env.pexpect).output = true) :
    driverChain env = ([Driver.pexpectD], (fetch_usage_with_pexpect env.pexpect).output) := by
  simp [driverChain, ha, h1]

theorem driverChain_subproc (env : Env) (ha : env.pexpectAvailable = true)
    (h1 : truthy (fetch_usage_with_pexpect env.pexpect).output = false)
    (h2 : truthy (fetch_usage_with_subprocess env.subprocessResult) = true) :
    driverChain env
      = ([Driver.pexpectD, Driver.subprocessD],
         fetch_usage_with_subprocess env.subprocessResult) := by
  simp [driverChain, ha, h1, h2]

/-- With `pexpect` importable, the fallback chain is the three-way cascade on
the interactive, pipe-based and OS-automation results. -/
theorem driverChain_avail (env : Env) (ha : env.pexpectAvailable = true) :
    driverChain env =
      (if truthy (fetch_usage_with_pexpect env.pexpect).output then
        ([Driver.pexpectD], (fetch_usage_with_pexpect env.pexpect).output)
      else if truthy (fetch_usage_with_subprocess env.subprocessResult) then
        ([Driver.pexpectD, Driver.subprocessD],
         fetch_usage_with_subprocess env.subprocessResult)
      else if env.platform = "darwin" then
        ([Driver.pexpectD, Driver.subprocessD, Driver.scriptD],
         fetch_usage_with_script env.scriptResult)
      else
        ([Driver.pexpectD, Driver.subprocessD],
         fetch_usage_with_subprocess env.subprocessResult)) := by
  obtain ⟨av, pe, sr, scr, pl⟩ := env
  cases av
  · exact Bool.noConfusion ha
  · rfl

theorem driverChain_attempted_cases (env : Env) (ha : env.pexpectAvailable = true) :
    (driverChain env).1 = [Driver.pexpectD] ∨
    (driverChain env).1 = [Driver.pexpectD, Driver.subprocessD] ∨
    ((driverChain env).1 = [Driver.pexpectD, Driver.subprocessD, Driver.scriptD] ∧
      env.platform = "darwin") := by
  rw [driverChain_avail env ha]
  by_cases hp1 : truthy (fetch_usage_with_pexpect env.pexpect).output = true
  · rw [if_pos hp1]; exact Or.inl rfl
  · rw [if_neg hp1]
    by_cases hp2 : truthy (fetch_usage_with_subprocess env.subprocessResult) = true
    · rw [if_pos hp2]; exact Or.inr (Or.inl rfl)
    · rw [if_neg hp2]
      by_cases hp3 : env.platform = "darwin"
      · rw [if_pos hp3]; exact Or.inr (Or.inr ⟨rfl, hp3⟩)
      · rw [if_neg hp3]; exact Or.inr (Or.inl rfl)

theorem driverChain_output_falsy (env : Env)
    (h1 : truthy (fetch_usage_with_pexpect env.pexpect).output = false)
    (h2 : truthy (fetch_usage_with_subprocess env.subprocessResult) = false)
    (h3 : env.platform = "darwin" → truthy (fetch_usage_with_script env.scriptResult) = false) :
    truthy (driverChain env).2 = false := by
  have ho1 : truthy (if env.pexpectAvailable then
      (fetch_usage_with_pexpect env.pexpect).output else none) = false := by
    cases env.pexpectAvailable
    · rfl
    · exact h1
  have ho1n : ¬ truthy (if env.pexpectAvailable then
      (fetch_usage_with_pexpect env.pexpect).output else none) = true := by
    simp [ho1]
  have h2n : ¬ truthy (fetch_usage_with_subprocess env.subprocessResult) = true := by
    simp [h2]
  simp only [driverChain]
  rw [if_neg ho1n, if_neg h2n]
  by_cases hp : env.platform = "darwin"
  · rw [if_pos hp]; exact h3 hp
  · rw [if_neg hp]; exact h2

theorem runMain_fail (env : Env) (n1 n2 : Nat) (file0 : Option UsageSnapshot)
    (h : truthy (driverChain env).2 = false) :
    (runMain env n1 n2 file0).1.success = false ∧
    (runMain env n1 n2 file0).1.fetchFailPrinted = true ∧
    (runMain env n1 n2 file0).1.parsed = none ∧
    (runMain env n1 n2 file0).1.saved = none ∧
    (runMain env n1 n2 file0).2 = file0 := by
  simp [runMain, h]

theorem runMain_noparse (env : Env) (n1 n2 : Nat) (file0 : Option UsageSnapshot)
    (h : parse_usage (textOf (driverChain env).2) = none) :
    (runMain env n1 n2 file0).1.saved = none ∧
    (runMain env n1 n2 file0).1.success = false ∧
    (runMain env n1 n2 file0).2 = file0 := by
  cases ht : truthy (driverChain env).2 <;> simp [runMain, ht, h]

/-! ## Claim theorems -/

/-- **C1** (code bug in the source): the claim says that when the prompt was
matched but the wait for a `%` response times out, the driver still returns
the buffered text.  In fact, on that path pexpect sets `child.after` to the
`TIMEOUT` exception class, whose missing `.decode` attribute makes line 44
raise `AttributeError`; the blanket `except` catches it and the driver
returns `None`, discarding the buffer.  Evaluated here at a failing input
whose buffer holds the text `Usage: 42`: the driver returns no output (and,
incidentally, also skips the exit/close cleanup). -/
theorem claim1_response_timeout_drops_buffer :
    (fetch_usage_with_pexpect
        ⟨false, PromptEvent.matched 0, RespEvent.timedOut, "Usage: 42".toList, []⟩).output
      = none ∧
    ("Usage: 42".toList : List Char) ≠ [] :=
  ⟨rfl, by decide⟩

/-- **C2** (counterexample): the claim says every return path of the
interactive-session driver sends the exit command and closes the handle.  On
the prompt-wait ending in end-of-stream (source line 31-33) the driver
returns `None` directly, with no `sendline` of exit and no `close`. -/
theorem claim2_counterexample :
    (fetch_usage_with_pexpect
        ⟨false, PromptEvent.eofSeen, RespEvent.matched, [], []⟩).sentExit = false ∧
    (fetch_usage_with_pexpect
        ⟨false, PromptEvent.eofSeen, RespEvent.matched, [], []⟩).closed = false :=
  ⟨rfl, rfl⟩

/-- **C2** (amended): the driver sends the exit command and closes the handle
exactly on the one path that returns output (spawn succeeded, a prompt
pattern matched, and the response expect matched so both buffers decoded);
on the end-of-stream / timeout prompt paths and on every caught internal
exception it returns `None` without exit or close. -/
theorem claim2_exit_close_iff_output (env : PexpectEnv) :
    ((fetch_usage_with_pexpect env).sentExit = true ∧
      (fetch_usage_with_pexpect env).closed = true) ↔
    (fetch_usage_with_pexpect env).output.isSome = true := by
  obtain ⟨sf, pe, re, b, a⟩ := env
  cases sf <;> cases pe <;> cases re <;> simp [fetch_usage_with_pexpect]

/-- **C3** (confirmed): `main` attempts the drivers strictly in the order
interactive-session, pipe-based, OS-automation; the OS-automation driver is
attempted only on the darwin platform; and the chain stops at the first
driver returning non-empty output — if the interactive driver returns
non-empty text only it runs, and if it fails while the pipe driver returns
non-empty text the OS-automation driver is never invoked. -/
theorem claim3_driver_order (env : Env) (n1 n2 : Nat) (file0 : Option UsageSnapshot)
    (ha : env.pexpectAvailable = true) :
    ((runMain env n1 n2 file0).1.attempted = [Driver.pexpectD] ∨
      (runMain env n1 n2 file0).1.attempted = [Driver.pexpectD, Driver.subprocessD] ∨
      (runMain env n1 n2 file0).1.attempted
        = [Driver.pexpectD, Driver.subprocessD, Driver.scriptD]) ∧
    (Driver.scriptD ∈ (runMain env n1 n2 file0).1.attempted → env.platform = "darwin") ∧
    (truthy (fetch_usage_with_pexpect env.pexpect).output = true →
      (runMain env n1 n2 file0).1.attempted = [Driver.pexpectD] ∧
      (runMain env n1 n2 file0).1.output = (fetch_usage_with_pexpect env.pexpect).output) ∧
    (truthy (fetch_usage_with_pexpect env.pexpect).output = false →
      truthy (fetch_usage_with_subprocess env.subprocessResult) = true →
      (runMain env n1 n2 file0).1.attempted = [Driver.pexpectD, Driver.subprocessD] ∧
      (runMain env n1 n2 file0).1.output
        = fetch_usage_with_subprocess env.subprocessResult) := by
  refine ⟨?_, ?_, ?_, ?_⟩
  · rw [runMain_attempted]
    rcases driverChain_attempted_cases env ha with h | h | ⟨h, _⟩
    · exact Or.inl h
    · exact Or.inr (Or.inl h)
    · exact Or.inr (Or.inr h)
  · intro hmem
    rw [runMain_attempted] at hmem
    rcases driverChain_attempted_cases env ha with h | h | ⟨h, hp⟩
    · rw [h] at hmem; exact absurd hmem (by decide)
    · rw [h] at hmem; exact absurd hmem (by decide)
    · exact hp
  · intro h1
    have hd := driverChain_pexpect env ha h1
    exact ⟨by rw [runMain_attempted, hd], by rw [runMain_output, hd]⟩
  · intro h1 h2
    have hd := driverChain_subproc env ha h1 h2
    exact ⟨by rw [runMain_attempted, hd], by rw [runMain_output, hd]⟩

/-- **C3** witness: on a run whose interactive-session driver returns the
non-empty text `Usage: 42%`, it is the only driver attempted. -/
theorem claim3_witness :
    (runMain ⟨true, ⟨false, PromptEvent.matched 0, RespEvent.matched,
        "Usage: 4".toList, "2%".toList⟩, none, none, "linux"⟩ 0 0 none).1.attempted
      = [Driver.pexpectD] :=
  ((claim3_driver_order _ 0 0 none rfl).2.2.1 (by decide)).1

/-- **C4** (counterexample): the claim says that for every text containing a
labeled occurrence such as `5-hour: 42%` the parser returns *that* integer
regardless of surrounding noise; but when the noise itself contains an
earlier occurrence of the same labeled pattern, the leftmost one wins: the
text `5-hour: 7% and 5-hour: 42%` contains `5-hour: 42%` yet parses to 7. -/
theorem claim4_counterexample :
    parse_usage ("5-hour: 7% and ".toList ++ "5-hour: 42%".toList) = some 7 ∧
    ¬ parse_usage ("5-hour: 7% and ".toList ++ "5-hour: 42%".toList) = some 42 :=
  ⟨by decide, by decide⟩

/-- **C4** (amended): for every raw text in which the labeled pattern
`5-hour: N%` matches, `parse_usage` returns exactly the integer of the
*leftmost* such match, regardless of surrounding noise text before or
after it. -/
theorem claim4_leftmost_labeled_match (t : List Char) (v : Nat)
    (h : searchFirst (matchLabeledAt fiveHourLabel) t = some v) :
    parse_usage t = some v := by
  apply labeledSearch_parse
  unfold labeledSearch
  rw [h]

/-- **C4** witness: noise including an earlier bare percentage does not
disturb the labeled value. -/
theorem claim4_witness :
    parse_usage ("xx 9% yy 5-hour: 42% zz".toList) = some 42 :=
  claim4_leftmost_labeled_match ("xx 9% yy 5-hour: 42% zz".toList) 42 (by decide)

/-- **C5** (confirmed): whenever one of the four labeled patterns matches,
`parse_usage` returns the value of the highest-priority labeled pattern
(patterns are tried in the fixed source order, case-insensitively, first
match winning), never the bare percentage; and when no pattern at all
matches — neither labeled nor bare — it returns no value. -/
theorem claim5_pattern_priority :
    (∀ (t : List Char) (v : Nat), labeledSearch t = some v → parse_usage t = some v) ∧
    (∀ t : List Char, labeledSearch t = none → bareSearch t = none →
      parse_usage t = none) := by
  constructor
  · exact labeledSearch_parse
  · intro t h1 h2
    cases t with
    | nil => rfl
    | cons c cs => rw [parse_usage_factored, h1, h2]; rfl

/-- **C5** witness: the text `noise 17% Usage: 40%` contains the bare
percentage 17 before the labeled pattern, yet the labeled value 40 is
returned. -/
theorem claim5_witness :
    parse_usage ("noise 17% Usage: 40%".toList) = some 40 :=
  claim5_pattern_priority.1 ("noise 17% Usage: 40%".toList) 40 (by decide)

/-- **C6** (confirmed): every snapshot built by `save_usage p` has
`percentage = p`, `used = p` (mirroring), `limit = 100`, `type = 5-hour`,
`realData = true`, and the fixed subscription and source labels; and the
end-to-end raw text about current plan usage parses to 73. -/
theorem claim6_snapshot_fields :
    (∀ (p : Int) (n1 n2 : Nat),
      (save_usage p n1 n2).percentage = p ∧
      (save_usage p n1 n2).used = p ∧
      (save_usage p n1 n2).limit = 100 ∧
      (save_usage p n1 n2).type = "5-hour" ∧
      (save_usage p n1 n2).realData = true ∧
      (save_usage p n1 n2).subscription = "Claude Pro" ∧
      (save_usage p n1 n2).source = "auto-fetch from Claude Code (Python)") ∧
    parse_usage ("Current plan usage today: Current usage: 73% of your limit".toList)
      = some 73 :=
  ⟨fun _ _ _ => ⟨rfl, rfl, rfl, rfl, rfl, rfl, rfl⟩, by decide⟩

/-- **C7** (counterexample): the claim says `resetAt` is exactly 5 hours
(18000 seconds) after the `timestamp` field.  `save_usage` reads the clock
twice — `reset_at` from the first reading (line 147), `timestamp` from a
second, later reading (line 157) — so when the clock advances by one second
between the two calls the difference is 17999 seconds, not 18000. -/
theorem claim7_counterexample :
    ¬ (save_usage 50 0 1).resetAt = (save_usage 50 0 1).timestamp + 18000 := by
  decide

/-- **C7** (amended): `resetAt` is exactly 5 hours after the *first* clock
reading of `save_usage`; since `timestamp` comes from the second, not
earlier, reading, `resetAt` is at most 5 hours after `timestamp`, with
equality exactly when the two readings coincide. -/
theorem claim7_reset_offset (p : Int) (n1 n2 : Nat) (h : n1 ≤ n2) :
    (save_usage p n1 n2).resetAt = n1 + 18000 ∧
    (save_usage p n1 n2).resetAt ≤ (save_usage p n1 n2).timestamp + 18000 ∧
    ((save_usage p n1 n2).resetAt = (save_usage p n1 n2).timestamp + 18000 ↔ n1 = n2) := by
  refine ⟨rfl, ?_, ?_⟩ <;> simp only [save_usage] <;> omega

/-- **C7** witness: with both readings at the same instant the offset is
exactly 5 hours. -/
theorem claim7_witness :
    (save_usage 50 3 3).resetAt = (save_usage 50 3 3).timestamp + 18000 :=
  (claim7_reset_offset 50 3 3 (Nat.le_refl 3)).2.2.mpr rfl

/-- **C8** (confirmed): when all applicable drivers return no output
(the OS-automation driver being applicable only on darwin), `main` prints
the user-facing failure diagnostic, returns failure, never calls the parser,
writes no snapshot, and leaves the file untouched; and likewise whenever the
parser yields no value, nothing is written and the run fails. -/
theorem claim8_failure_leaves_state (env : Env) (n1 n2 : Nat) (file0 : Option UsageSnapshot) :
    (truthy (fetch_usage_with_pexpect env.pexpect).output = false →
      truthy (fetch_usage_with_subprocess env.subprocessResult) = false →
      (env.platform = "darwin" → truthy (fetch_usage_with_script env.scriptResult) = false) →
      (runMain env n1 n2 file0).1.success = false ∧
      (runMain env n1 n2 file0).1.fetchFailPrinted = true ∧
      (runMain env n1 n2 file0).1.parsed = none ∧
      (runMain env n1 n2 file0).1.saved = none ∧
      (runMain env n1 n2 file0).2 = file0) ∧
    (parse_usage (textOf (driverChain env).2) = none →
      (runMain env n1 n2 file0).1.saved = none ∧
      (runMain env n1 n2 file0).1.success = false ∧
      (runMain env n1 n2 file0).2 = file0) := by
  constructor
  · intro h1 h2 h3
    exact runMain_fail env n1 n2 file0 (driverChain_output_falsy env h1 h2 h3)
  · intro h
    exact runMain_noparse env n1 n2 file0 h

/-- **C8** witness: a non-darwin run in which the interactive driver hits
end-of-stream and the pipe driver raises leaves the previously saved
snapshot in place and fails. -/
theorem claim8_witness :
    (runMain ⟨true, ⟨false, PromptEvent.eofSeen, RespEvent.matched, [], []⟩,
        none, none, "linux"⟩ 0 0 (some (save_usage 1 2 3))).1.success = false ∧
    (runMain ⟨true, ⟨false, PromptEvent.eofSeen, RespEvent.matched, [], []⟩,
        none, none, "linux"⟩ 0 0 (some (save_usage 1 2 3))).1.fetchFailPrinted = true ∧
    (runMain ⟨true, ⟨false, PromptEvent.eofSeen, RespEvent.matched, [], []⟩,
        none, none, "linux"⟩ 0 0 (some (save_usage 1 2 3))).1.parsed = none ∧
    (runMain ⟨true, ⟨false, PromptEvent.eofSeen, RespEvent.matched, [], []⟩,
        none, none, "linux"⟩ 0 0 (some (save_usage 1 2 3))).1.saved = none ∧
    (runMain ⟨true, ⟨false, PromptEvent.eofSeen, RespEvent.matched, [], []⟩,
        none, none, "linux"⟩ 0 0 (some (save_usage 1 2 3))).2 = some (save_usage 1 2 3) :=
  (claim8_failure_leaves_state _ 0 0 _).1 (by decide) (by decide) (by decide)

/-- **C9** (confirmed): `import pexpect` runs unconditionally at module load
(line 4), so whenever `main` executes at all the module was importable: the
`except ImportError` fallback message is never printed and the
interactive-session driver is always the first driver attempted. -/
theorem claim9_pexpect_always_first (env : Env) (n1 n2 : Nat)
    (file0 : Option UsageSnapshot) (r : MainResult) (f : Option UsageSnapshot)
    (h : runProgram env n1 n2 file0 = some (r, f)) :
    r.importFallbackPrinted = false ∧ r.attempted.head? = some Driver.pexpectD := by
  unfold runProgram at h
  cases ha : env.pexpectAvailable with
  | false => rw [ha] at h; exact Option.noConfusion h
  | true =>
    rw [ha] at h
    rw [if_pos rfl] at h
    have hr : (runMain env n1 n2 file0).1 = r := by
      have := congrArg Prod.fst (Option.some.inj h)
      exact this
    rw [← hr]
    constructor
    · rw [runMain_importFallback, ha]
      rfl
    · rw [runMain_attempted]
      rcases driverChain_attempted_cases env ha with hc | hc | ⟨hc, _⟩ <;> rw [hc] <;> rfl

/-- **C9** witness: a concrete completed run has the fallback message
unprinted and the interactive-session driver attempted first. -/
theorem claim9_witness :
    (runMain ⟨true, ⟨false, PromptEvent.timedOut, RespEvent.matched, [], []⟩,
        none, none, "linux"⟩ 0 0 none).1.importFallbackPrinted = false ∧
    (runMain ⟨true, ⟨false, PromptEvent.timedOut, RespEvent.matched, [], []⟩,
        none, none, "linux"⟩ 0 0 none).1.attempted.head? = some Driver.pexpectD :=
  claim9_pexpect_always_first
    ⟨true, ⟨false, PromptEvent.timedOut, RespEvent.matched, [], []⟩, none, none, "linux"⟩
    0 0 none
    (runMain ⟨true, ⟨false, PromptEvent.timedOut, RespEvent.matched, [], []⟩,
        none, none, "linux"⟩ 0 0 none).1
    (runMain ⟨true, ⟨false, PromptEvent.timedOut, RespEvent.matched, [], []⟩,
        none, none, "linux"⟩ 0 0 none).2
    rfl

/-- **C10** (confirmed): every value `parse_usage` returns is a nonnegative
integer (each pattern captures a bare digit run), but no upper bound is
enforced: the text `250%` parses to 250, and that out-of-range value is
handed to `save_usage` and persisted unchanged — shown both on the
persistence step alone and on a whole `main` run whose driver scraped
`250%`. -/
theorem claim10_no_range_clamp :
    (∀ (t : List Char) (v : Nat), parse_usage t = some v → (0 : Int) ≤ (v : Int)) ∧
    parse_usage ("250%".toList) = some 250 ∧
    (∀ n1 n2 : Nat,
      (save_usage ((250 : Nat) : Int) n1 n2).percentage = 250 ∧
      (save_usage ((250 : Nat) : Int) n1 n2).used = 250) ∧
    (runMain ⟨true, ⟨false, PromptEvent.matched 0, RespEvent.matched,
        "25".toList, "0%".toList⟩, none, none, "linux"⟩ 3 4 none).2
      = some (save_usage (Int.ofNat 250) 3 4) := by
  refine ⟨fun t v _ => Int.natCast_nonneg v, by decide, fun n1 n2 => ⟨rfl, rfl⟩, ?_⟩
  rfl

/-- **C10** witness: the nonnegativity fact applied at the out-of-range
parse result 250. -/
theorem claim10_witness : (0 : Int) ≤ ((250 : Nat) : Int) :=
  claim10_no_range_clamp.1 ("250%".toList) 250 (by decide)

end FetchClaudeUsage
